import Mathlib

/-!
Verification of the braiins hashchain controller core against its
specification.  The Rust sources are shallowly embedded: machine integers
(`usize`, `u32`) become `Nat` (with saturation / panic modelled explicitly
where the Rust arithmetic would underflow or overflow deterministically),
`f32`/`f64` temperature and time values become `ℚ` (only ordered-field
operations and comparisons are performed on them), `Instant` becomes a `Nat`
timestamp in seconds with `duration_since` as truncated subtraction, and
fallible or panicking code returns `Option`.
-/

namespace Braiins

/-! ### Monitor data model (bosminer-antminer/src/monitor.rs) -/

/-- Modelled from the spec: `fan::Speed` (fan.rs is not under src/).  A fan
speed is a PWM duty-cycle percentage with distinguished constants `STOPPED`
and `FULL_SPEED`. -/
structure Speed where
  pwm : Nat
deriving DecidableEq

def Speed.STOPPED : Speed := ⟨0⟩

def Speed.FULL_SPEED : Speed := ⟨100⟩

/-- Interpreted hashchain temperature (monitor.rs `Temperature`); the `f32`
payload is modelled as `ℚ`. -/
inductive Temperature where
  | Unknown : Temperature
  | Ok (t : ℚ) : Temperature
deriving DecidableEq

/-- monitor.rs `FanControlMode`. -/
inductive FanControlMode where
  | FixedSpeed (s : Speed) : FanControlMode
  | TargetTemperature (t : ℚ) : FanControlMode
deriving DecidableEq

/-- monitor.rs `FanControlConfig`. -/
structure FanControlConfig where
  mode : FanControlMode
  min_fans : Nat
deriving DecidableEq

/-- monitor.rs `TempControlConfig`. -/
structure TempControlConfig where
  dangerous_temp : ℚ
  hot_temp : ℚ
deriving DecidableEq

/-- monitor.rs `Config` ("disabled" is represented as `none`). -/
structure Config where
  fan_config : Option FanControlConfig
  temp_config : Option TempControlConfig
  fans_on_while_warming_up : Bool
deriving DecidableEq

/-- monitor.rs `ControlDecision` (the `reason` strings and
`temperature_status` of `ControlDecisionExplained` are not modelled; the
claims only speak about the decision itself). -/
inductive ControlDecision where
  | Shutdown : ControlDecision
  | UsePid (target_temp input_temp : ℚ) : ControlDecision
  | UseFixedSpeed (s : Speed) : ControlDecision
  | Nothing : ControlDecision
deriving DecidableEq

/-- monitor.rs `ControlDecision::decide_fan_control`: decision rules when
both fan control and temp control are enabled.  The `Unknown` temperature is
dispatched first (top of the Rust function), which also discharges the
unreachable `panic!` arm inside `TargetTemperature`. -/
def ControlDecision.decide_fan_control (fan_config : FanControlConfig)
    (temp_config : TempControlConfig) (temp : Temperature) : ControlDecision :=
  match temp with
  | Temperature.Unknown => ControlDecision.UseFixedSpeed Speed.FULL_SPEED
  | Temperature.Ok input_temp =>
    match fan_config.mode with
    | FanControlMode.FixedSpeed pwm => ControlDecision.UseFixedSpeed pwm
    | FanControlMode.TargetTemperature target_temp =>
      if input_temp ≥ temp_config.hot_temp then
        ControlDecision.UseFixedSpeed Speed.FULL_SPEED
      else
        ControlDecision.UsePid target_temp input_temp

/-- monitor.rs `ControlDecision::decide_fan_control_notemp`: decision rules
when fan control is enabled and temp control disabled. -/
def ControlDecision.decide_fan_control_notemp
    (fan_config : FanControlConfig) : ControlDecision :=
  match fan_config.mode with
  | FanControlMode.FixedSpeed pwm => ControlDecision.UseFixedSpeed pwm
  | FanControlMode.TargetTemperature _ =>
    ControlDecision.UseFixedSpeed Speed.FULL_SPEED

/-- monitor.rs `decide`, section labeled TEMP_DANGER: the dangerous
temperature check that short-circuits to `Shutdown`. -/
def ControlDecision.temp_danger (config : Config) (temp : Temperature) : Bool :=
  match config.temp_config with
  | some temp_config =>
    match temp with
    | Temperature.Ok input_temp => input_temp ≥ temp_config.dangerous_temp
    | Temperature.Unknown => false
  | none => false

/-- monitor.rs `ControlDecision::decide`. -/
def ControlDecision.decide (config : Config) (num_fans_running : Nat)
    (temp : Temperature) : ControlDecision :=
  if ControlDecision.temp_danger config temp then ControlDecision.Shutdown
  else
    match config.fan_config with
    | some fan_config =>
      let decision :=
        match config.temp_config with
        | some temp_config =>
          ControlDecision.decide_fan_control fan_config temp_config temp
        | none => ControlDecision.decide_fan_control_notemp fan_config
      -- section labeled FAN_DANGER: check `min_fans` are spinning unless
      -- explicitly configured to turn them off
      if decision ≠ ControlDecision.UseFixedSpeed Speed.STOPPED ∧
          num_fans_running < fan_config.min_fans then
        ControlDecision.Shutdown
      else decision
    | none => ControlDecision.Nothing

/-! ### Monitor chain-state machine (bosminer-antminer/src/monitor.rs) -/

/-- monitor.rs `START_TIMEOUT` in seconds. -/
def START_TIMEOUT : Nat := 180

/-- monitor.rs `RUN_UPDATE_TIMEOUT` in seconds. -/
def RUN_UPDATE_TIMEOUT : Nat := 20

/-- monitor.rs `WARM_UP_PERIOD` in seconds. -/
def WARM_UP_PERIOD : Nat := 90

/-- monitor.rs `Message`.  The `Arc<dyn SummaryTemperature>` payload is
modelled by the `Temperature` it reports. -/
inductive Message where
  | On : Message
  | Running (temp_obj : Temperature) : Message
  | Off : Message

/-- monitor.rs `ChainState`.  Timestamps are `Nat` seconds, the temperature
trait object is modelled by the `Temperature` it reports, and the static
`&str` reasons of `Broken` are kept as strings. -/
inductive ChainState where
  | On (started : Nat) : ChainState
  | Running (started last_heartbeat : Nat) (temp_obj : Temperature) : ChainState
  | Off : ChainState
  | Broken (reason : String) : ChainState
deriving DecidableEq

/-- monitor.rs `ChainState::bad_transition`. -/
def ChainState.bad_transition : ChainState :=
  ChainState.Broken "bad state transition"

/-- monitor.rs `ChainState::transition`: react on an incoming message. -/
def ChainState.transition (state : ChainState) (now : Nat)
    (message : Message) : ChainState :=
  match message with
  | Message.On =>
    match state with
    | ChainState.Off => ChainState.On now
    | _ => ChainState.bad_transition
  | Message.Running temp_obj =>
    match state with
    | ChainState.Running started _ _ =>
      ChainState.Running started now temp_obj
    | ChainState.On started => ChainState.Running started now temp_obj
    | _ => ChainState.bad_transition
  | Message.Off =>
    match state with
    | ChainState.On _ => ChainState.Off
    | ChainState.Running _ _ _ => ChainState.Off
    | _ => ChainState.bad_transition

/-- monitor.rs `ChainState::tick`: timer tick checking all timeouts
(`now.duration_since t` is truncated subtraction `now - t`). -/
def ChainState.tick (state : ChainState) (now : Nat) : ChainState :=
  match state with
  | ChainState.On started =>
    if now - started ≥ START_TIMEOUT then
      ChainState.Broken "took too long to start"
    else state
  | ChainState.Running _ last_heartbeat _ =>
    if now - last_heartbeat ≥ RUN_UPDATE_TIMEOUT then
      ChainState.Broken "failed to set update in time"
    else state
  | _ => state

/-- monitor.rs `ChainState::get_temperature`. -/
def ChainState.get_temperature (state : ChainState) : Temperature :=
  match state with
  | ChainState.Running _ _ temp_obj => temp_obj
  | _ => Temperature.Unknown

/-- monitor.rs `ChainState::is_warming_up`. -/
def ChainState.is_warming_up (state : ChainState) (now : Nat) : Bool :=
  match state with
  | ChainState.On _ => true
  | ChainState.Running started _ _ => now - started ≤ WARM_UP_PERIOD
  | _ => false

/-- Helper: a state is one of the `Broken` states. -/
def ChainState.isBroken (state : ChainState) : Bool :=
  match state with
  | ChainState.Broken _ => true
  | _ => false

/-- Helper: the fan-action candidate produced by `decide` before the
`FAN_DANGER` minimum-fan check (the inner `let decision` of the source). -/
def ControlDecision.fan_candidate (config : Config)
    (fan_config : FanControlConfig) (temp : Temperature) : ControlDecision :=
  match config.temp_config with
  | some temp_config =>
    ControlDecision.decide_fan_control fan_config temp_config temp
  | none => ControlDecision.decide_fan_control_notemp fan_config

/-- C4: `tick` turns `On started` into `Broken` iff `now - started ≥ 180` s
(otherwise the state is unchanged), turns `Running` into `Broken` iff
`now - last_heartbeat ≥ 20` s (otherwise unchanged), and leaves `Off`
unchanged for every `now`. -/
theorem chainstate_tick_timeouts (now started started2 last_heartbeat : Nat)
    (temp_obj : Temperature) :
    (ChainState.tick (ChainState.On started) now =
      if 180 ≤ now - started then ChainState.Broken "took too long to start"
      else ChainState.On started)
    ∧ (ChainState.tick
        (ChainState.Running started2 last_heartbeat temp_obj) now =
      if 20 ≤ now - last_heartbeat then
        ChainState.Broken "failed to set update in time"
      else ChainState.Running started2 last_heartbeat temp_obj)
    ∧ ChainState.tick ChainState.Off now = ChainState.Off := by
  refine ⟨?_, ?_, rfl⟩ <;>
    simp only [ChainState.tick, START_TIMEOUT, RUN_UPDATE_TIMEOUT]

/-- C5: the chain-state transition function realises exactly the
Off/On/Running message table, with `Broken` (reason "bad state transition")
for every violation, `started` preserved and `last_heartbeat` refreshed on
`Running`. -/
theorem chainstate_transition_table (now started last_heartbeat : Nat)
    (temp_obj temp_obj2 : Temperature) :
    ChainState.transition ChainState.Off now Message.On = ChainState.On now
    ∧ ChainState.transition ChainState.Off now (Message.Running temp_obj) =
      ChainState.Broken "bad state transition"
    ∧ ChainState.transition ChainState.Off now Message.Off =
      ChainState.Broken "bad state transition"
    ∧ ChainState.transition (ChainState.On started) now
        (Message.Running temp_obj) =
      ChainState.Running started now temp_obj
    ∧ ChainState.transition (ChainState.On started) now Message.Off =
      ChainState.Off
    ∧ ChainState.transition (ChainState.On started) now Message.On =
      ChainState.Broken "bad state transition"
    ∧ ChainState.transition
        (ChainState.Running started last_heartbeat temp_obj) now
        (Message.Running temp_obj2) =
      ChainState.Running started now temp_obj2
    ∧ ChainState.transition
        (ChainState.Running started last_heartbeat temp_obj) now Message.Off =
      ChainState.Off
    ∧ ChainState.transition
        (ChainState.Running started last_heartbeat temp_obj) now Message.On =
      ChainState.Broken "bad state transition" :=
  ⟨rfl, rfl, rfl, rfl, rfl, rfl, rfl, rfl, rfl⟩

/-- C9: the `Broken` state is absorbing: every message transitions it to a
`Broken` state, `tick` leaves it unchanged, its reported temperature is
`Unknown` and it is never warming up. -/
theorem chainstate_broken_absorbing (reason : String) (now : Nat)
    (message : Message) :
    (ChainState.transition (ChainState.Broken reason) now message).isBroken =
      true
    ∧ ChainState.tick (ChainState.Broken reason) now =
      ChainState.Broken reason
    ∧ ChainState.get_temperature (ChainState.Broken reason) =
      Temperature.Unknown
    ∧ ChainState.is_warming_up (ChainState.Broken reason) now = false := by
  refine ⟨?_, rfl, rfl, rfl⟩
  cases message <;> rfl

/-- C3: `decide` returns `Shutdown` whenever `temp_config` is present and the
temperature is `Ok t` with `t ≥ dangerous_temp`; otherwise with no
`fan_config` it returns `Nothing`; otherwise the candidate fan action is
returned, overridden to `Shutdown` when it is not exactly
`UseFixedSpeed STOPPED` and fewer than `min_fans` fans run, while a
`UseFixedSpeed STOPPED` candidate is returned unchanged even with zero fans
running. -/
theorem decide_policy (config : Config) (num_fans_running : Nat)
    (temp : Temperature) :
    (∀ tc t, config.temp_config = some tc → temp = Temperature.Ok t →
      tc.dangerous_temp ≤ t →
      ControlDecision.decide config num_fans_running temp =
        ControlDecision.Shutdown)
    ∧ (ControlDecision.temp_danger config temp = false →
      config.fan_config = none →
      ControlDecision.decide config num_fans_running temp =
        ControlDecision.Nothing)
    ∧ (∀ fc, ControlDecision.temp_danger config temp = false →
      config.fan_config = some fc →
      (ControlDecision.fan_candidate config fc temp =
          ControlDecision.UseFixedSpeed Speed.STOPPED →
        ControlDecision.decide config num_fans_running temp =
          ControlDecision.fan_candidate config fc temp)
      ∧ (ControlDecision.fan_candidate config fc temp ≠
          ControlDecision.UseFixedSpeed Speed.STOPPED →
        num_fans_running < fc.min_fans →
        ControlDecision.decide config num_fans_running temp =
          ControlDecision.Shutdown)
      ∧ (fc.min_fans ≤ num_fans_running →
        ControlDecision.decide config num_fans_running temp =
          ControlDecision.fan_candidate config fc temp)) := by
  refine ⟨?_, ?_, ?_⟩
  · intro tc t htc ht hle
    subst ht
    simp [ControlDecision.decide, ControlDecision.temp_danger, htc, hle]
  · intro hdanger hfan
    simp [ControlDecision.decide, hdanger, hfan]
  · intro fc hdanger hfan
    refine ⟨?_, ?_, ?_⟩
    · intro hstop
      simp [ControlDecision.decide, hdanger, hfan,
        ControlDecision.fan_candidate] at hstop ⊢
      simp [hstop]
    · intro hstop hlt
      simp [ControlDecision.decide, hdanger, hfan,
        ControlDecision.fan_candidate] at hstop ⊢
      simp [hstop, hlt]
    · intro hge
      simp [ControlDecision.decide, hdanger, hfan,
        ControlDecision.fan_candidate, Nat.not_lt.mpr hge]

/-- C3 witness: with `temp_config = some ⟨100, 80⟩` and temperature 150 the
decision is `Shutdown`. -/
theorem decide_policy_witness :
    ControlDecision.decide ⟨none, some ⟨100, 80⟩, true⟩ 2
      (Temperature.Ok 150) = ControlDecision.Shutdown :=
  (decide_policy ⟨none, some ⟨100, 80⟩, true⟩ 2 (Temperature.Ok 150)).1
    ⟨100, 80⟩ 150 rfl rfl (by norm_num)

/-! ### Baud divisor (bosminer-am1-s9/src/hashchain/utils.rs and
bosminer-antminer/src/utils.rs, identical code) -/

/-- Outcome of `calc_baud_clock_div`: a successful divisor/actual-baud pair,
a `BaudRate` error, or a panic of the Rust code (the `usize` subtraction
`... - 1` underflows when the fixed-point rounded quotient is zero; the
wrapped value then makes `baud_div + 1` overflow to zero and the following
division panics, in release as well as in debug builds). -/
inductive BaudOutcome where
  | ok (baud_div actual_baud_rate : Nat) : BaudOutcome
  | err : BaudOutcome
  | panic : BaudOutcome
deriving DecidableEq

/-- utils.rs `MAX_BAUD_RATE_ERR_PERC`. -/
def MAX_BAUD_RATE_ERR_PERC : Nat := 5

/-- utils.rs `calc_baud_clock_div` (the `BaudRate` error message string is
not modelled). -/
def calc_baud_clock_div (baud_rate base_clock_hz base_clock_div : Nat) :
    BaudOutcome :=
  if (10 * base_clock_hz / (base_clock_div * baud_rate) + 5) / 10 = 0 then
    BaudOutcome.panic
  else
    let baud_div :=
      (10 * base_clock_hz / (base_clock_div * baud_rate) + 5) / 10 - 1
    let actual_baud_rate := base_clock_hz / (base_clock_div * (baud_div + 1))
    let baud_rate_diff :=
      if actual_baud_rate > baud_rate then actual_baud_rate - baud_rate
      else baud_rate - actual_baud_rate
    if baud_rate_diff > MAX_BAUD_RATE_ERR_PERC * baud_rate / 100 then
      BaudOutcome.err
    else
      BaudOutcome.ok baud_div actual_baud_rate

/-! ### Work delay (hashchain/utils.rs); `f64` modelled as `ℚ` -/

/-- utils.rs `calculate_work_delay_for_pll` (also duplicated as a private
function in hashchain.rs): `0.9 * n_midstates * 2^19 / pll_frequency`
seconds. -/
def calculate_work_delay_for_pll (n_midstates pll_frequency : Nat) : ℚ :=
  (9 / 10) * ((n_midstates * (1 <<< 19) : Nat) : ℚ) / (pll_frequency : ℚ)

/-- utils.rs `secs_to_fpga_ticks`: `(secs * fpga_freq as f64) as u32`.  The
Rust `as u32` cast truncates toward zero and saturates at the `u32`
bounds. -/
def secs_to_fpga_ticks (fpga_freq : Nat) (secs : ℚ) : Nat :=
  let x := secs * (fpga_freq : ℚ)
  if x < 0 then 0 else min (Int.toNat ⌊x⌋) (2 ^ 32 - 1)

/-- Modelled from the spec: `io::F_CLK_SPEED_HZ` (io.rs is not under src/).
The FPGA clock frequency; its value is pinned by the in-repo tests
`test_work_time_computation` (expecting 36296 ticks) and
`test_calc_baud_div_correct_baud_rate_fpga` (divisor table for 6.25 MHz
base-clock-over-divisor). -/
def F_CLK_SPEED_HZ : Nat := 50000000

/-- C6 counterexample: with requested baud equal to the base clock (both
nonzero) the fixed-point rounded quotient is zero and `calc_baud_clock_div`
panics instead of returning the pair or a `BaudRate` error the claim
promises for every nonzero input. -/
theorem calc_baud_clock_div_panics :
    calc_baud_clock_div 25000000 25000000 8 = BaudOutcome.panic ∧
    (0 : Nat) < 25000000 ∧ (0 : Nat) < 8 := by decide

/-- C6 (amended): whenever the fixed-point rounded quotient
`(10*base/(div*baud) + 5)/10` is positive (so the `- 1` does not underflow),
`calc_baud_clock_div` returns `(div, actual)` with
`div = (10*base/(div0*baud) + 5)/10 - 1` and
`actual = base/(div0*(div+1))`, failing with a `BaudRate` error exactly when
`|actual - baud| / baud > 5%` (stated integer-free as
`100 * |actual - baud| > 5 * baud`); in particular with base clock 25 MHz
and divisor 8 it returns divisors 26, 6, 1, 0 for rates 115200, 460800,
1500000, 3000000 and fails for 3500000. -/
theorem calc_baud_clock_div_correct (baud_rate base_clock_hz base_clock_div :
    Nat)
    (hq : 0 < (10 * base_clock_hz / (base_clock_div * baud_rate) + 5) / 10) :
    (let baud_div :=
      (10 * base_clock_hz / (base_clock_div * baud_rate) + 5) / 10 - 1
    let actual_baud_rate := base_clock_hz / (base_clock_div * (baud_div + 1))
    calc_baud_clock_div baud_rate base_clock_hz base_clock_div =
      if 100 * (max actual_baud_rate baud_rate -
          min actual_baud_rate baud_rate) > 5 * baud_rate then
        BaudOutcome.err
      else BaudOutcome.ok baud_div actual_baud_rate)
    ∧ calc_baud_clock_div 115200 25000000 8 = BaudOutcome.ok 26 115740
    ∧ calc_baud_clock_div 460800 25000000 8 = BaudOutcome.ok 6 446428
    ∧ calc_baud_clock_div 1500000 25000000 8 =
      BaudOutcome.ok 1 1562500
    ∧ calc_baud_clock_div 3000000 25000000 8 =
      BaudOutcome.ok 0 3125000
    ∧ calc_baud_clock_div 3500000 25000000 8 = BaudOutcome.err := by
  refine ⟨?_, by decide, by decide, by decide, by decide, by decide⟩
  have hne : (10 * base_clock_hz / (base_clock_div * baud_rate) + 5) / 10 ≠ 0 :=
    Nat.pos_iff_ne_zero.mp hq
  simp only [calc_baud_clock_div, if_neg hne, gt_iff_lt]
  set baud_div :=
    (10 * base_clock_hz / (base_clock_div * baud_rate) + 5) / 10 - 1 with hdiv
  set actual := base_clock_hz / (base_clock_div * (baud_div + 1)) with hact
  have hdist :
      (if baud_rate < actual then actual - baud_rate
        else baud_rate - actual) =
      max actual baud_rate - min actual baud_rate := by
    rcases le_or_lt actual baud_rate with h | h
    · rw [if_neg (Nat.not_lt.mpr h), Nat.max_eq_right h, Nat.min_eq_left h]
    · rw [if_pos h, Nat.max_eq_left h.le, Nat.min_eq_right h.le]
  rw [hdist]
  have hcond :
      (MAX_BAUD_RATE_ERR_PERC * baud_rate / 100 <
        max actual baud_rate - min actual baud_rate) =
      (5 * baud_rate < 100 * (max actual baud_rate - min actual baud_rate)) := by
    rw [eq_iff_iff, MAX_BAUD_RATE_ERR_PERC,
      Nat.div_lt_iff_lt_mul (by norm_num : (0 : Nat) < 100),
      mul_comm (max actual baud_rate - min actual baud_rate) 100]
  simp only [hcond]

/-- C6 witness: the amended theorem applied at the tested 115200-baud input
(the rounded quotient there is 27 > 0). -/
theorem calc_baud_clock_div_correct_witness :
    calc_baud_clock_div 115200 25000000 8 = BaudOutcome.ok 26 115740 :=
  (calc_baud_clock_div_correct 115200 25000000 8 (by decide)).2.1

/-- Helper: on the non-negative, non-saturating range the `as u32` cast of
`secs_to_fpga_ticks` is exactly the floor. -/
theorem secs_to_fpga_ticks_eq_floor (fpga : Nat) (secs : ℚ) (hs : 0 ≤ secs)
    (hlt : secs * (fpga : ℚ) < 2 ^ 32) :
    (secs_to_fpga_ticks fpga secs : ℤ) = ⌊secs * (fpga : ℚ)⌋ := by
  have hx : (0 : ℚ) ≤ secs * (fpga : ℚ) :=
    mul_nonneg hs (by positivity)
  have hfl : (0 : ℤ) ≤ ⌊secs * (fpga : ℚ)⌋ := Int.floor_nonneg.mpr hx
  have hflt : ⌊secs * (fpga : ℚ)⌋ < 2 ^ 32 := by
    have h1 : ((⌊secs * (fpga : ℚ)⌋ : ℚ)) < 2 ^ 32 :=
      lt_of_le_of_lt (Int.floor_le _) hlt
    exact_mod_cast h1
  have hmin : Int.toNat ⌊secs * (fpga : ℚ)⌋ ≤ 2 ^ 32 - 1 := by omega
  simp only [secs_to_fpga_ticks, if_neg (not_lt.mpr hx),
    min_eq_left hmin]
  omega

/-- Helper: the work delay at one midstate and 650 MHz times the FPGA clock
is the rational 2359296/65 (≈ 36296.87). -/
theorem work_delay_product :
    calculate_work_delay_for_pll 1 650000000 * ((F_CLK_SPEED_HZ : Nat) : ℚ) =
      2359296 / 65 := by
  simp only [calculate_work_delay_for_pll, F_CLK_SPEED_HZ, Nat.shiftLeft_eq]
  norm_num

/-- C7: `calculate_work_delay_for_pll n pll` equals `0.9 * n * 2^19 / pll`
seconds, `secs_to_fpga_ticks fpga secs` equals `⌊secs * fpga⌋` (on the
non-negative, non-saturating range), and the composition at one midstate,
650 MHz PLL and the FPGA clock yields 36296 ticks. -/
theorem work_delay_correct (n_midstates pll fpga : Nat) (secs : ℚ)
    (hpll : 0 < pll) (hs : 0 ≤ secs)
    (hlt : secs * (fpga : ℚ) < 2 ^ 32) :
    calculate_work_delay_for_pll n_midstates pll =
      (9 / 10 : ℚ) * n_midstates * 2 ^ 19 / pll
    ∧ (secs_to_fpga_ticks fpga secs : ℤ) = ⌊secs * (fpga : ℚ)⌋
    ∧ secs_to_fpga_ticks F_CLK_SPEED_HZ
        (calculate_work_delay_for_pll 1 650000000) = 36296 := by
  refine ⟨?_, secs_to_fpga_ticks_eq_floor fpga secs hs hlt, ?_⟩
  · simp only [calculate_work_delay_for_pll, Nat.shiftLeft_eq]
    push_cast
    ring
  · have hs0 : (0 : ℚ) ≤ calculate_work_delay_for_pll 1 650000000 := by
      simp only [calculate_work_delay_for_pll]
      positivity
    have hlt0 : calculate_work_delay_for_pll 1 650000000 *
        ((F_CLK_SPEED_HZ : Nat) : ℚ) < 2 ^ 32 := by
      rw [work_delay_product]; norm_num
    have h2 := secs_to_fpga_ticks_eq_floor F_CLK_SPEED_HZ
      (calculate_work_delay_for_pll 1 650000000) hs0 hlt0
    rw [work_delay_product] at h2
    have h3 : ⌊(2359296 / 65 : ℚ)⌋ = (36296 : ℤ) := by
      rw [Int.floor_eq_iff] <;> norm_num
    rw [h3] at h2
    exact_mod_cast h2

/-- C7 witness: the composition theorem applied at one midstate and the
650 MHz PLL frequency. -/
theorem work_delay_correct_witness :
    secs_to_fpga_ticks F_CLK_SPEED_HZ
      (calculate_work_delay_for_pll 1 650000000) = 36296 :=
  (work_delay_correct 1 650000000 F_CLK_SPEED_HZ
    (calculate_work_delay_for_pll 1 650000000) (by norm_num)
    (by simp only [calculate_work_delay_for_pll]; positivity)
    (by simp only [calculate_work_delay_for_pll, F_CLK_SPEED_HZ,
          Nat.shiftLeft_eq]
        norm_num)).2.2

/-! ### Frequency settings (bosminer-am1-s9/src/hashchain/frequency.rs) -/

/-- hashchain.rs `MAX_CHIPS_ON_CHAIN`. -/
def MAX_CHIPS_ON_CHAIN : Nat := 63

/-- hashchain.rs `EXPECTED_CHIPS_ON_CHAIN`. -/
def EXPECTED_CHIPS_ON_CHAIN : Nat := 63

/-- frequency.rs `FrequencySettings`: per-chip frequency vector in Hz. -/
structure FrequencySettings where
  chip : List Nat
deriving DecidableEq

/-- frequency.rs `FrequencySettings::from_frequency`: all chips at the same
frequency. -/
def FrequencySettings.from_frequency (frequency : Nat) : FrequencySettings :=
  ⟨List.replicate EXPECTED_CHIPS_ON_CHAIN frequency⟩

/-- frequency.rs `FrequencySettings::set_chip_count`:
`assert!(self.chip.len() >= chip_count)` (a failed assert panics, modelled
as `none`) followed by `self.chip.resize(chip_count, 0)`, which under the
assert truncates the vector to `chip_count` entries. -/
def FrequencySettings.set_chip_count (self : FrequencySettings)
    (chip_count : Nat) : Option FrequencySettings :=
  if self.chip.length < chip_count then none
  else some ⟨self.chip.take chip_count⟩

/-- frequency.rs `FrequencySettings::min` (`.expect` on an empty chain
panics, modelled as `none`). -/
def FrequencySettings.min (self : FrequencySettings) : Option Nat :=
  self.chip.min?

/-- frequency.rs `FrequencySettings::max`. -/
def FrequencySettings.max (self : FrequencySettings) : Option Nat :=
  self.chip.max?

/-- C8 counterexample: `set_chip_count` on a fresh 63-entry vector with
`n = 2` leaves a vector of length 2 — the trailing entry at index 2 (and
all others up to 62) is removed, not preserved as the claim states. -/
theorem set_chip_count_drops_tail :
    FrequencySettings.set_chip_count (FrequencySettings.from_frequency 5) 2 =
      some ⟨[5, 5]⟩
    ∧ ([5, 5] : List Nat).get? 2 = none
    ∧ (FrequencySettings.from_frequency 5).chip.get? 2 = some 5 := by decide

/-- C8 (amended): for `n ≤ fs.chip.length`, `set_chip_count` succeeds and
truncates the chip vector to exactly its first `n` entries, which are
unchanged (entries beyond `n` are removed); `from_frequency f` yields a
63-entry vector with every entry `f`. -/
theorem set_chip_count_truncates (fs : FrequencySettings) (n : Nat)
    (h : n ≤ fs.chip.length) :
    FrequencySettings.set_chip_count fs n = some ⟨fs.chip.take n⟩
    ∧ (fs.chip.take n).length = n
    ∧ (∀ i, i < n → (fs.chip.take n).get? i = fs.chip.get? i)
    ∧ ∀ f : Nat, (FrequencySettings.from_frequency f).chip =
        List.replicate 63 f := by
  refine ⟨?_, ?_, ?_, fun _ => rfl⟩
  · simp [FrequencySettings.set_chip_count, Nat.not_lt.mpr h]
  · simp [List.length_take, Nat.min_eq_left h]
  · intro i hi
    exact List.get?_take hi

/-- C8 witness: the amended theorem applied to a fresh vector and `n = 3`. -/
theorem set_chip_count_truncates_witness :
    FrequencySettings.set_chip_count (FrequencySettings.from_frequency 7) 3 =
      some ⟨(FrequencySettings.from_frequency 7).chip.take 3⟩ :=
  (set_chip_count_truncates (FrequencySettings.from_frequency 7) 3
    (by decide)).1

/-! ### PLL programming (bosminer-am1-s9/src/hashchain.rs `set_pll`) -/

/-- bm1387.rs `ChipAddress`: broadcast or a single chip. -/
inductive ChipAddress where
  | All : ChipAddress
  | One (i : Nat) : ChipAddress
deriving DecidableEq

/-- hashchain.rs `HashChain::set_pll` as a pure function.  Inputs: the
midstate count, the detected `chip_count`, the currently persisted
`self.frequency.chip` vector and the requested `FrequencySettings`.  Output:
the list of PLL writes issued via `set_chip_pll` (recorded as
address/frequency pairs; the `bm1387::PllTable` register lookup is out of
src/ and abstracted away), the `WORK_TIME` tick value written by
`set_work_time(frequency.max())`, and the newly persisted frequency vector.
`none` models the panics: the `assert!(frequency.chip.len() >= chip_count)`,
out-of-bounds indexing of the persisted vector, and the `.expect` inside
`min()`/`max()` on an empty chain. -/
def HashChain.set_pll (midstate_count chip_count : Nat)
    (cur_frequency : List Nat) (frequency : FrequencySettings) :
    Option (List (ChipAddress × Nat) × Nat × List Nat) :=
  if frequency.chip.length < chip_count ∨
      cur_frequency.length < chip_count then none
  else
    match frequency.min, frequency.max with
    | some mn, some mx =>
      let writes :=
        if mn = mx then
          -- update them in one go: broadcast `frequency.chip[0]`
          [(ChipAddress.All, frequency.chip.getD 0 0)]
        else
          -- update chips one-by-one; NOTE: the source takes `new_freq`
          -- from the persisted `self.frequency.chip[i]` and compares it
          -- against the requested `frequency.chip[i]`
          (List.range chip_count).filterMap (fun i =>
            let new_freq := cur_frequency.getD i 0
            if new_freq ≠ frequency.chip.getD i 0 then
              some (ChipAddress.One i, new_freq)
            else none)
      let work_time := secs_to_fpga_ticks F_CLK_SPEED_HZ
        (calculate_work_delay_for_pll midstate_count mx)
      -- remember what frequencies are set:
      -- `cur_frequency.chip[i] = frequency.chip[i]` for `i < chip_count`
      let new_cur := frequency.chip.take chip_count ++
        cur_frequency.drop chip_count
      some (writes, work_time, new_cur)
    | _, _ => none

/-- Helper: `secs_to_fpga_ticks` evaluated through the floor bounds. -/
theorem secs_to_fpga_ticks_eq_nat (fpga : Nat) (secs : ℚ) (n : Nat)
    (hs : 0 ≤ secs) (hn : n < 2 ^ 32)
    (hlo : (n : ℚ) ≤ secs * (fpga : ℚ))
    (hhi : secs * (fpga : ℚ) < n + 1) :
    secs_to_fpga_ticks fpga secs = n := by
  have hn1 : ((n : ℚ) + 1) ≤ 2 ^ 32 := by
    have : (n : ℚ) + 1 ≤ ((2 ^ 32 : Nat) : ℚ) := by exact_mod_cast hn
    simpa using this
  have hlt : secs * (fpga : ℚ) < 2 ^ 32 := lt_of_lt_of_le hhi hn1
  have h := secs_to_fpga_ticks_eq_floor fpga secs hs hlt
  have hfl : ⌊secs * (fpga : ℚ)⌋ = (n : ℤ) := by
    rw [Int.floor_eq_iff]
    exact ⟨by exact_mod_cast hlo, by push_cast; exact hhi⟩
  rw [hfl] at h
  exact_mod_cast h

/-- C1 (evaluation at the failing input): with two chips currently at
650 MHz and a request of 650/700 MHz, `set_pll` takes the per-chip branch
and writes the *currently persisted* 650 MHz to chip 1 — not the requested
700 MHz the claim states — while persisting 700 MHz as chip 1's frequency
and recomputing `WORK_TIME` (33704 ticks) from the requested maximum. -/
theorem set_pll_writes_stale_value :
    HashChain.set_pll 1 2 [650000000, 650000000] ⟨[650000000, 700000000]⟩ =
      some ([(ChipAddress.One 1, 650000000)], 33704,
        [650000000, 700000000])
    ∧ (decide ((650000000 : Nat) = 700000000)) = false := by
  have hticks : secs_to_fpga_ticks F_CLK_SPEED_HZ
      (calculate_work_delay_for_pll 1 700000000) = 33704 := by
    refine secs_to_fpga_ticks_eq_nat _ _ 33704 ?_ (by norm_num) ?_ ?_ <;>
      simp only [calculate_work_delay_for_pll, F_CLK_SPEED_HZ,
        Nat.shiftLeft_eq] <;> norm_num
  refine ⟨?_, by norm_num⟩
  simp only [HashChain.set_pll, FrequencySettings.min, FrequencySettings.max]
  norm_num [List.min?, List.max?, List.filterMap]
  exact hticks

/-! ### Solution receive path (bosminer-am1-s9/src/hashchain.rs
`solution_rx_task`) -/

/-- hashchain.rs `Solution` restricted to the fields the receive path
inspects: the nonce and the midstate index. -/
structure Solution where
  nonce : Nat
  midstate_idx : Nat
deriving DecidableEq

/-- Modelled from the spec: `bm1387::CoreAddress::new(nonce)` (bm1387.rs is
not under src/) — the solution is attributed to a core address derived from
the upper bits of the nonce (7 bits of core address in the nonce-space
partition described in hashchain/utils.rs). -/
def CoreAddress.new (nonce : Nat) : Nat :=
  nonce / 2 ^ 25 % 2 ^ 7

/-- Registry entry (registry.rs is not under src/): the stored work is
represented by its midstate count, the initial/opencore flag, and the set of
already-seen `(midstate_idx, nonce)` pairs. -/
structure RegistryEntry where
  initial_work : Bool
  midstate_count : Nat
  seen_nonces : List (Nat × Nat)
deriving DecidableEq

/-- Status returned by `insert_solution` (registry.rs is not under src/). -/
structure InsertStatus where
  unique_solution : Option Solution
  duplicate : Bool
  mismatched_nonce : Bool
deriving DecidableEq

/-- Modelled from the spec: `registry` `insert_solution` (registry.rs is not
under src/): look up the midstate indicated by `solution.midstate_idx`; if
the midstate index is out of range, report `mismatched_nonce`; if the
`(midstate, nonce)` pair was already seen, report `duplicate`; otherwise
record the pair and return the paired unique solution.  Duplicates and
mismatches never produce `unique_solution`. -/
def RegistryEntry.insert_solution (self : RegistryEntry)
    (solution : Solution) : InsertStatus × RegistryEntry :=
  if solution.midstate_idx < self.midstate_count then
    if (solution.midstate_idx, solution.nonce) ∈ self.seen_nonces then
      (⟨none, true, false⟩, self)
    else
      (⟨some solution, false, false⟩,
        { self with seen_nonces :=
            (solution.midstate_idx, solution.nonce) :: self.seen_nonces })
  else
    (⟨none, false, true⟩, self)

/-- Modelled from the spec: the per-core valid/error counters of
`counters::HashChain` (counters.rs is not under src/), as functions from
core address to count. -/
structure Counters where
  valid : Nat → Nat
  error : Nat → Nat

/-- Modelled from the spec: `add_valid` increments the per-core valid
counter. -/
def Counters.add_valid (self : Counters) (core : Nat) : Counters :=
  ⟨fun c => if c = core then self.valid c + 1 else self.valid c, self.error⟩

/-- Modelled from the spec: `add_error` increments the per-core error
counter. -/
def Counters.add_error (self : Counters) (core : Nat) : Counters :=
  ⟨self.valid, fun c => if c = core then self.error c + 1 else self.error c⟩

/-- registry.rs `find_work` (modelled over a slot list): the entry stored
under `work_id`, if any. -/
def find_work (registry : List (Option RegistryEntry)) (work_id : Nat) :
    Option RegistryEntry :=
  (registry.get? work_id).join

/-- hashchain.rs `HashChain::solution_rx_task`, the body of one loop
iteration as a pure function.  `meets` abstracts the recomputed-hash-vs-
backend-target check (`hash.meets(backend_target)`, ii_bitcoin is external).
Returns the updated registry, updated counters and the list of solutions
forwarded to the `SolutionSender` in this iteration. -/
def solution_rx_step (meets : Solution → Bool)
    (registry : List (Option RegistryEntry)) (counter : Counters)
    (work_id : Nat) (solution : Solution) :
    List (Option RegistryEntry) × Counters × List Solution :=
  match find_work registry work_id with
  | none =>
    -- "No work present for solution": log and drop
    (registry, counter, [])
  | some work_item =>
    -- ignore solutions coming from initial work
    if work_item.initial_work then (registry, counter, [])
    else
      let core_addr := CoreAddress.new solution.nonce
      let sr := work_item.insert_solution solution
      let registry1 := registry.set work_id (some sr.2)
      let cf : Counters × List Solution :=
        match sr.1.unique_solution with
        | some unique_solution =>
          if !sr.1.duplicate then
            (if meets unique_solution then counter.add_valid core_addr
              else counter.add_error core_addr,
              [unique_solution])
          else (counter, [])
        | none => (counter, [])
      let c2 := if sr.1.duplicate then cf.1.add_error core_addr else cf.1
      let c3 := if sr.1.mismatched_nonce then c2.add_error core_addr else c2
      (registry1, c3, cf.2)

/-- Helper: the three outcomes of the spec-modelled `insert_solution` are
mutually exclusive, and a unique solution is the inserted one. -/
theorem insert_solution_cases (e : RegistryEntry) (s : Solution) :
    (∀ u, (e.insert_solution s).1.unique_solution = some u →
      u = s ∧ (e.insert_solution s).1.duplicate = false ∧
        (e.insert_solution s).1.mismatched_nonce = false)
    ∧ ((e.insert_solution s).1.duplicate = true →
      (e.insert_solution s).1.unique_solution = none ∧
        (e.insert_solution s).1.mismatched_nonce = false)
    ∧ ((e.insert_solution s).1.mismatched_nonce = true →
      (e.insert_solution s).1.unique_solution = none ∧
        (e.insert_solution s).1.duplicate = false) := by
  unfold RegistryEntry.insert_solution
  split <;> [skip; simp] <;> split <;> simp

/-- C2: one iteration of `solution_rx_task`: an unknown `work_id` is dropped
with no counter change and nothing forwarded; an initial/opencore entry is
dropped; a fresh unique non-duplicate solution is always forwarded —
regardless of whether its hash meets the backend target — counting per-core
valid on a hit and per-core error on a miss; duplicate and mismatched-nonce
outcomes each count a per-core error and are never forwarded. -/
theorem solution_rx_step_policy (meets : Solution → Bool)
    (registry : List (Option RegistryEntry)) (counter : Counters)
    (work_id : Nat) (solution : Solution) :
    (find_work registry work_id = none →
      solution_rx_step meets registry counter work_id solution =
        (registry, counter, []))
    ∧ (∀ e, find_work registry work_id = some e → e.initial_work = true →
      solution_rx_step meets registry counter work_id solution =
        (registry, counter, []))
    ∧ (∀ e, find_work registry work_id = some e → e.initial_work = false →
      (∀ u, (e.insert_solution solution).1.unique_solution = some u →
        (solution_rx_step meets registry counter work_id solution).2.2 = [u]
        ∧ (meets u = true →
          (solution_rx_step meets registry counter work_id
              solution).2.1.valid (CoreAddress.new solution.nonce) =
            counter.valid (CoreAddress.new solution.nonce) + 1
          ∧ (solution_rx_step meets registry counter work_id
              solution).2.1.error (CoreAddress.new solution.nonce) =
            counter.error (CoreAddress.new solution.nonce))
        ∧ (meets u = false →
          (solution_rx_step meets registry counter work_id
              solution).2.1.error (CoreAddress.new solution.nonce) =
            counter.error (CoreAddress.new solution.nonce) + 1
          ∧ (solution_rx_step meets registry counter work_id
              solution).2.1.valid (CoreAddress.new solution.nonce) =
            counter.valid (CoreAddress.new solution.nonce)))
      ∧ ((e.insert_solution solution).1.duplicate = true →
        (solution_rx_step meets registry counter work_id solution).2.2 = []
        ∧ (solution_rx_step meets registry counter work_id
            solution).2.1.error (CoreAddress.new solution.nonce) =
          counter.error (CoreAddress.new solution.nonce) + 1
        ∧ (solution_rx_step meets registry counter work_id
            solution).2.1.valid (CoreAddress.new solution.nonce) =
          counter.valid (CoreAddress.new solution.nonce))
      ∧ ((e.insert_solution solution).1.mismatched_nonce = true →
        (solution_rx_step meets registry counter work_id solution).2.2 = []
        ∧ (solution_rx_step meets registry counter work_id
            solution).2.1.error (CoreAddress.new solution.nonce) =
          counter.error (CoreAddress.new solution.nonce) + 1
        ∧ (solution_rx_step meets registry counter work_id
            solution).2.1.valid (CoreAddress.new solution.nonce) =
          counter.valid (CoreAddress.new solution.nonce))) := by
  refine ⟨?_, ?_, ?_⟩
  · intro hnone
    simp [solution_rx_step, hnone]
  · intro e hfind hinit
    simp [solution_rx_step, hfind, hinit]
  · intro e hfind hinit
    have hcases := insert_solution_cases e solution
    refine ⟨?_, ?_, ?_⟩
    · intro u hu
      obtain ⟨-, hdup, hmis⟩ := hcases.1 u hu
      simp only [solution_rx_step, hfind, hinit, Bool.false_eq_true,
        if_false, hu, hdup, hmis, Bool.not_false, if_true]
      refine ⟨trivial, ?_, ?_⟩
      · intro hm
        simp [hm, Counters.add_valid]
      · intro hm
        simp [hm, Counters.add_error]
    · intro hdup
      obtain ⟨hu, hmis⟩ := hcases.2.1 hdup
      simp only [solution_rx_step, hfind, hinit, Bool.false_eq_true,
        if_false, hu, hdup, hmis]
      simp [Counters.add_error]
    · intro hmis
      obtain ⟨hu, hdup⟩ := hcases.2.2 hmis
      simp only [solution_rx_step, hfind, hinit, Bool.false_eq_true,
        if_false, hu, hdup, hmis]
      simp [Counters.add_error]

/-- C2 witness: a non-initial single-midstate entry at slot 0 receiving a
fresh target-meeting solution forwards it and counts one valid. -/
theorem solution_rx_step_policy_witness :
    (solution_rx_step (fun _ => true) [some ⟨false, 1, []⟩]
        ⟨fun _ => 0, fun _ => 0⟩ 0 ⟨0, 0⟩).2.2 = [⟨0, 0⟩]
    ∧ (solution_rx_step (fun _ => true) [some ⟨false, 1, []⟩]
        ⟨fun _ => 0, fun _ => 0⟩ 0 ⟨0, 0⟩).2.1.valid (CoreAddress.new 0) =
      1 := by
  have h := ((solution_rx_step_policy (fun _ => true) [some ⟨false, 1, []⟩]
    ⟨fun _ => 0, fun _ => 0⟩ 0 ⟨0, 0⟩).2.2 ⟨false, 1, []⟩ rfl rfl).1
    ⟨0, 0⟩ rfl
  exact ⟨h.1, (h.2.1 rfl).1⟩

/-! ### Summary temperature (bosminer-am1-s9/src/temperature.rs) -/

/-- ii_hwmon `Value` (external crate), as used by sensor.rs and
temperature.rs; the `f32` payload is modelled as `ℚ`. -/
inductive HwmonValue where
  | Ok (t : ℚ) : HwmonValue
  | OpenCircuit : HwmonValue
  | ShortCircuit : HwmonValue
  | InvalidReading : HwmonValue
  | NotPresent : HwmonValue
deriving DecidableEq

/-- ii_hwmon `Reading` with fields `local` and `remote` (`local` is renamed
`loc` because it is a Lean keyword). -/
structure HwmonReading where
  loc : HwmonValue
  remote : HwmonValue
deriving DecidableEq

/-- sensor.rs `SensorResult`. -/
inductive SensorResult where
  | NotInitialized : SensorResult
  | ReadFailed : SensorResult
  | Valid (r : HwmonReading) : SensorResult
  | Broken : SensorResult
  | NotPresent : SensorResult
deriving DecidableEq

/-- temperature.rs `Hashboard::REMOTE_TEMPERATURE_OFFSET_ESTIMATE`. -/
def REMOTE_TEMPERATURE_OFFSET_ESTIMATE : ℚ := 15

/-- temperature.rs `impl SummaryTemperature for Hashboard`:
`summary_temperature` (the `Hashboard` newtype over `SensorResult` is
elided). -/
def Hashboard.summary_temperature (self : SensorResult) : Temperature :=
  match self with
  | SensorResult.Valid temp =>
    match temp.remote with
    | HwmonValue.Ok t_remote =>
      match temp.loc with
      | HwmonValue.Ok t_local => Temperature.Ok (max t_remote t_local)
      | _ => Temperature.Ok t_remote
    | _ =>
      -- fake chip temperature from local (PCB) temperature
      match temp.loc with
      | HwmonValue.Ok t_local =>
        Temperature.Ok (t_local + REMOTE_TEMPERATURE_OFFSET_ESTIMATE)
      | _ => Temperature.Unknown
  | _ => Temperature.Unknown

/-- Helper: is an ii_hwmon value an `Ok` reading. -/
def HwmonValue.isOk (v : HwmonValue) : Bool :=
  match v with
  | HwmonValue.Ok _ => true
  | _ => false

/-- Helper: is a sensor result `Valid`. -/
def SensorResult.isValid (s : SensorResult) : Bool :=
  match s with
  | SensorResult.Valid _ => true
  | _ => false

/-- C10: `summary_temperature` is total with exactly this case analysis: for
a `Valid` reading it is `Ok (max remote local)` when both values are `Ok`,
`Ok remote` when only the remote is `Ok`, `Ok (local + 15)` when only the
local is `Ok`, and `Unknown` when neither is; every non-`Valid` sensor
result yields `Unknown`. -/
theorem summary_temperature_cases (s : SensorResult) (r : HwmonReading)
    (t_remote t_local : ℚ) :
    (r.remote = HwmonValue.Ok t_remote → r.loc = HwmonValue.Ok t_local →
      Hashboard.summary_temperature (SensorResult.Valid r) =
        Temperature.Ok (max t_remote t_local))
    ∧ (r.remote = HwmonValue.Ok t_remote → r.loc.isOk = false →
      Hashboard.summary_temperature (SensorResult.Valid r) =
        Temperature.Ok t_remote)
    ∧ (r.remote.isOk = false → r.loc = HwmonValue.Ok t_local →
      Hashboard.summary_temperature (SensorResult.Valid r) =
        Temperature.Ok (t_local + 15))
    ∧ (r.remote.isOk = false → r.loc.isOk = false →
      Hashboard.summary_temperature (SensorResult.Valid r) =
        Temperature.Unknown)
    ∧ (s.isValid = false →
      Hashboard.summary_temperature s = Temperature.Unknown) := by
  obtain ⟨rl, rr⟩ := r
  refine ⟨?_, ?_, ?_, ?_, ?_⟩
  · intro h1 h2
    subst h1; subst h2
    rfl
  · intro h1 h2
    subst h1
    cases rl <;> simp_all [Hashboard.summary_temperature, HwmonValue.isOk]
  · intro h1 h2
    subst h2
    cases rr <;> simp_all [Hashboard.summary_temperature, HwmonValue.isOk,
      REMOTE_TEMPERATURE_OFFSET_ESTIMATE]
  · intro h1 h2
    cases rr <;> cases rl <;>
      simp_all [Hashboard.summary_temperature, HwmonValue.isOk]
  · intro h
    cases s <;> simp_all [Hashboard.summary_temperature,
      SensorResult.isValid]

/-- C10 witness: the both-Ok case at local 10 °C, remote 22 °C (mirroring
the in-repo test) reports 22 °C. -/
theorem summary_temperature_cases_witness :
    Hashboard.summary_temperature
      (SensorResult.Valid ⟨HwmonValue.Ok 10, HwmonValue.Ok 22⟩) =
      Temperature.Ok (max 22 10) :=
  (summary_temperature_cases
    (SensorResult.Valid ⟨HwmonValue.Ok 10, HwmonValue.Ok 22⟩)
    ⟨HwmonValue.Ok 10, HwmonValue.Ok 22⟩ 22 10).1 rfl rfl

end Braiins
